import Mathlib

/-!
Shallow embedding of the `unchecked-index` crate (`src/lib.rs`).

Modelling conventions:

* A Rust slice `[T]` is a `List α`; the slice's length is `List.length`.
* A panicking assertion is an `Except.error` carrying the panic message;
  normal return is `Except.ok`.
* The raw unchecked access primitives (`<[T]>::get_unchecked` and
  `get_unchecked_mut`) have undefined behavior out of bounds; undefined
  behavior is modelled as `none`, a defined in-bounds access as `some _`.
* A mutable reference that is only ever written through is functionalized:
  `get_unchecked_mut` takes the value that the caller stores through the
  returned reference and yields the updated container.
* The `#[cfg(debug_assertions)]` build switch is an explicit `Config`
  parameter: `Config.debug` compiles the assertions in, `Config.release`
  elides them.
-/

/-- Build configuration: whether `debug_assertions` (and with them the
bounds assertions of the crate) are compiled in. -/
inductive Config where
  | debug
  | release
  deriving DecidableEq

/-- Rust `std::ops::Range<usize>` (half-open `[start, stop)`; the Rust field
`end` is a Lean keyword so it is called `stop` here). -/
structure RustRange where
  start : Nat
  stop : Nat
  deriving DecidableEq

/-- Rust `std::ops::RangeTo<usize>`: the range `[0, stop)`. -/
structure RustRangeTo where
  stop : Nat
  deriving DecidableEq

/-- Rust `std::ops::RangeFrom<usize>`: the range `[start, len)`. -/
structure RustRangeFrom where
  start : Nat
  deriving DecidableEq

/-- Rust `std::ops::RangeFull`: the full range `[0, len)`. -/
structure RustRangeFull where
  deriving DecidableEq

/-- The panic message of the scalar bounds assertion in
`impl CheckIndex<usize> for [T]`:
`"index {} is out of bounds in slice of len {}"`. -/
def oob_msg (index len : Nat) : String :=
  "index " ++ toString index ++ " is out of bounds in slice of len " ++ toString len

/-- Trait `CheckIndex<I>`: assert that `index` is valid for indexing `self`;
must not return (here: returns `Except.error` with the panic message) if the
index is invalid. -/
class CheckIndex (T : Type) (I : Type) where
  assert_indexable_with : T → I → Except String Unit

/-- Trait `GetUnchecked<I>`: access element(s) at `index` without any check.
`none` models the undefined behavior of an out-of-bounds unchecked access. -/
class GetUnchecked (T : Type) (I : Type) (O : outParam Type) where
  get_unchecked : T → I → Option O

/-- Trait `GetUncheckedMut<I>`, functionalized: obtain the mutable reference
to the element(s) at `index` without any check and store `x` through it,
returning the updated container; `none` models out-of-bounds undefined
behavior. -/
class GetUncheckedMut (T : Type) (I : Type) (O : outParam Type) where
  get_unchecked_mut : T → I → O → Option T

/-- `impl<T> CheckIndex<usize> for [T]` (the `assert!(index < self.len())`). -/
instance instCheckSliceNat (α : Type) : CheckIndex (List α) Nat where
  assert_indexable_with v index :=
    if index < v.length then Except.ok ()
    else Except.error (oob_msg index v.length)

/-- `impl<T> GetUnchecked<usize> for [T]`: the raw slice primitive. -/
instance instGetSliceNat (α : Type) : GetUnchecked (List α) Nat α where
  get_unchecked v index := v[index]?

/-- `impl<T> GetUncheckedMut<usize> for [T]`: the raw slice primitive, with
the store through the returned reference folded in. -/
instance instGetMutSliceNat (α : Type) : GetUncheckedMut (List α) Nat α where
  get_unchecked_mut v index x :=
    if index < v.length then some (v.set index x) else none

/-- `impl_slice_range!(Range<usize>)`, assertion part: first
`assert!(index.start <= index.end, "start={} must be less than end={}")`,
then `assert!(index.end <= self.len(), "end is greater than len={}")`. -/
instance instCheckSliceRange (α : Type) : CheckIndex (List α) RustRange where
  assert_indexable_with v index :=
    if index.start ≤ index.stop then
      if index.stop ≤ v.length then Except.ok ()
      else Except.error ("end is greater than len=" ++ toString v.length)
    else
      Except.error ("start=" ++ toString index.start ++ " must be less than end="
        ++ toString index.stop)

/-- `impl_slice_range!(Range<usize>)`, read part: the sub-slice `[start, stop)`
shares the backing storage; out of bounds is undefined behavior (`none`). -/
instance instGetSliceRange (α : Type) : GetUnchecked (List α) RustRange (List α) where
  get_unchecked v index :=
    if index.start ≤ index.stop ∧ index.stop ≤ v.length then
      some ((v.drop index.start).take (index.stop - index.start))
    else none

/-- `impl_slice_range!(Range<usize>)`, write part: storing a sub-slice of the
addressed length through the mutable reference replaces that region. -/
instance instGetMutSliceRange (α : Type) : GetUncheckedMut (List α) RustRange (List α) where
  get_unchecked_mut v index xs :=
    if index.start ≤ index.stop ∧ index.stop ≤ v.length
        ∧ xs.length = index.stop - index.start then
      some (v.take index.start ++ xs ++ v.drop index.stop)
    else none

/-- `impl_slice_range!(RangeTo<usize>)`, assertion part:
`assert!(index.end <= self.len(), "end is greater than len={}")`. -/
instance instCheckSliceRangeTo (α : Type) : CheckIndex (List α) RustRangeTo where
  assert_indexable_with v index :=
    if index.stop ≤ v.length then Except.ok ()
    else Except.error ("end is greater than len=" ++ toString v.length)

/-- `impl_slice_range!(RangeTo<usize>)`, read part. -/
instance instGetSliceRangeTo (α : Type) : GetUnchecked (List α) RustRangeTo (List α) where
  get_unchecked v index :=
    if index.stop ≤ v.length then some (v.take index.stop) else none

/-- `impl_slice_range!(RangeTo<usize>)`, write part. -/
instance instGetMutSliceRangeTo (α : Type) : GetUncheckedMut (List α) RustRangeTo (List α) where
  get_unchecked_mut v index xs :=
    if index.stop ≤ v.length ∧ xs.length = index.stop then
      some (xs ++ v.drop index.stop)
    else none

/-- `impl_slice_range!(RangeFrom<usize>)`, assertion part:
`assert!(index.start <= self.len(), "end is greater than len={}")`
(the message text is the source's, including its copy-pasted "end"). -/
instance instCheckSliceRangeFrom (α : Type) : CheckIndex (List α) RustRangeFrom where
  assert_indexable_with v index :=
    if index.start ≤ v.length then Except.ok ()
    else Except.error ("end is greater than len=" ++ toString v.length)

/-- `impl_slice_range!(RangeFrom<usize>)`, read part. -/
instance instGetSliceRangeFrom (α : Type) : GetUnchecked (List α) RustRangeFrom (List α) where
  get_unchecked v index :=
    if index.start ≤ v.length then some (v.drop index.start) else none

/-- `impl_slice_range!(RangeFrom<usize>)`, write part. -/
instance instGetMutSliceRangeFrom (α : Type) :
    GetUncheckedMut (List α) RustRangeFrom (List α) where
  get_unchecked_mut v index xs :=
    if index.start ≤ v.length ∧ xs.length = v.length - index.start then
      some (v.take index.start ++ xs)
    else none

/-- `impl_slice_range!(RangeFull)`, assertion part: the assertion body is
empty — always valid. -/
instance instCheckSliceRangeFull (α : Type) : CheckIndex (List α) RustRangeFull where
  assert_indexable_with _ _ := Except.ok ()

/-- `impl_slice_range!(RangeFull)`, read part: the whole slice. -/
instance instGetSliceRangeFull (α : Type) : GetUnchecked (List α) RustRangeFull (List α) where
  get_unchecked v _ := some v

/-- `impl_slice_range!(RangeFull)`, write part. -/
instance instGetMutSliceRangeFull (α : Type) :
    GetUncheckedMut (List α) RustRangeFull (List α) where
  get_unchecked_mut v _ xs := if xs.length = v.length then some xs else none

/-- A Rust shared reference `&T`, as a one-field structure so that the
blanket impls for references are distinct instances from those for `T`. -/
structure Ref (T : Type) where
  deref : T

/-- A Rust mutable reference `&mut T`. -/
structure RefMut (T : Type) where
  deref : T

/-- `impl<'a, T: ?Sized, I> CheckIndex<I> for &'a T`: forwards to `**self`. -/
instance instCheckRef (T I : Type) [CheckIndex T I] : CheckIndex (Ref T) I where
  assert_indexable_with r index := CheckIndex.assert_indexable_with r.deref index

/-- `impl<'a, T: ?Sized, I> CheckIndex<I> for &'a mut T`: forwards to `**self`. -/
instance instCheckRefMut (T I : Type) [CheckIndex T I] : CheckIndex (RefMut T) I where
  assert_indexable_with r index := CheckIndex.assert_indexable_with r.deref index

/-- `impl<'a, T: ?Sized, I> GetUnchecked<I> for &'a T`: forwards to `**self`. -/
instance instGetRef (T I O : Type) [GetUnchecked T I O] : GetUnchecked (Ref T) I O where
  get_unchecked r index := GetUnchecked.get_unchecked r.deref index

/-- `impl<'a, T: ?Sized, I> GetUnchecked<I> for &'a mut T`: forwards to `**self`. -/
instance instGetRefMut (T I O : Type) [GetUnchecked T I O] : GetUnchecked (RefMut T) I O where
  get_unchecked r index := GetUnchecked.get_unchecked r.deref index

/-- `impl<'a, T: ?Sized, I> GetUncheckedMut<I> for &'a mut T`: forwards to
`**self`; the updated referent is wrapped back into the reference. -/
instance instGetMutRefMut (T I O : Type) [GetUncheckedMut T I O] :
    GetUncheckedMut (RefMut T) I O where
  get_unchecked_mut r index x :=
    (GetUncheckedMut.get_unchecked_mut r.deref index x).map RefMut.mk

/-- Wrapper type for unchecked indexing through the regular index syntax
(`pub struct UncheckedIndex<S>(S)`). -/
structure UncheckedIndex (S : Type) where
  val : S
  deriving DecidableEq

/-- `pub unsafe fn unchecked_index<T>(v: T) -> UncheckedIndex<T>`: wraps the
container, performing no validation; it cannot fail. -/
def unchecked_index {T : Type} (v : T) : UncheckedIndex T :=
  UncheckedIndex.mk v

/-- `impl<S: Copy> Clone for UncheckedIndex<S>`: `fn clone(&self) -> Self { *self }`. -/
def UncheckedIndex.clone {S : Type} (w : UncheckedIndex S) : UncheckedIndex S :=
  w

/-- `impl Deref for UncheckedIndex<T>`: transparent delegation to the held
container. -/
def UncheckedIndex.deref {T : Type} (w : UncheckedIndex T) : T :=
  w.val

/-- `pub unsafe fn get_unchecked<T, I>(v: &T, index: I)`: under
`Config.debug` the `#[cfg(debug_assertions)]` assertion runs first and a
failed assertion panics (`Except.error`); then the raw access runs. -/
def get_unchecked {T I O : Type} [CheckIndex T I] [GetUnchecked T I O]
    (cfg : Config) (v : T) (index : I) : Except String (Option O) :=
  match cfg with
  | Config.debug =>
      match CheckIndex.assert_indexable_with v index with
      | Except.error e => Except.error e
      | Except.ok _ => Except.ok (GetUnchecked.get_unchecked v index)
  | Config.release => Except.ok (GetUnchecked.get_unchecked v index)

/-- `pub unsafe fn get_unchecked_mut<T, I>(v: &mut T, index: I)`, with the
store through the returned mutable reference folded in. -/
def get_unchecked_mut {T I O : Type} [CheckIndex T I] [GetUncheckedMut T I O]
    (cfg : Config) (v : T) (index : I) (x : O) : Except String (Option T) :=
  match cfg with
  | Config.debug =>
      match CheckIndex.assert_indexable_with v index with
      | Except.error e => Except.error e
      | Except.ok _ => Except.ok (GetUncheckedMut.get_unchecked_mut v index x)
  | Config.release => Except.ok (GetUncheckedMut.get_unchecked_mut v index x)

/-- `impl<T, I> Index<I> for UncheckedIndex<T>`: the read subscript,
`unsafe { get_unchecked(&self.0, index) }`. -/
def UncheckedIndex.index {T I O : Type} [CheckIndex T I] [GetUnchecked T I O]
    (cfg : Config) (w : UncheckedIndex T) (index : I) : Except String (Option O) :=
  get_unchecked cfg w.val index

/-- `impl<T, I> IndexMut<I> for UncheckedIndex<T>`: the write subscript,
`unsafe { get_unchecked_mut(&mut self.0, index) }`, with the store through
the returned reference folded in; the updated container is wrapped again. -/
def UncheckedIndex.index_mut {T I O : Type} [CheckIndex T I] [GetUncheckedMut T I O]
    (cfg : Config) (w : UncheckedIndex T) (index : I) (x : O) :
    Except String (Option (UncheckedIndex T)) :=
  (get_unchecked_mut cfg w.val index x).map (Option.map UncheckedIndex.mk)

/-- Repeated validated reads of the same scalar index, threading the
container state: `read_iter cfg v i m` performs `m + 1` reads in sequence,
returning the last outcome and the final container. -/
def read_iter {α : Type} (cfg : Config) (v : List α) (i : Nat) :
    Nat → Except String (Option α) × List α
  | 0 => (UncheckedIndex.index cfg (unchecked_index v) i, v)
  | Nat.succ m =>
      let r := read_iter cfg v i m
      (UncheckedIndex.index cfg (unchecked_index r.2) i, r.2)

/-- Sequential writes through the wrapper: for each index `i` in the list,
write the value `i` at position `i` (the loop body `data[i] = i` of the
crate's `it_works` test), propagating a panic or undefined behavior. -/
def write_seq (cfg : Config) (w : UncheckedIndex (List Nat)) :
    List Nat → Except String (Option (UncheckedIndex (List Nat)))
  | [] => Except.ok (some w)
  | i :: rest =>
      match UncheckedIndex.index_mut cfg w i i with
      | Except.error e => Except.error e
      | Except.ok none => Except.ok none
      | Except.ok (some w') => write_seq cfg w' rest

/-- `needle` occurs as a contiguous substring of `hay`. -/
def contains_sub (needle hay : String) : Prop :=
  needle.data <:+: hay.data

instance (needle hay : String) : Decidable (contains_sub needle hay) :=
  List.decidableInfix needle.data hay.data

/-- C1: for every slice of length `n` and scalar index `i`, in the validated
(debug-assertions) configuration, the read subscript and the write subscript
through the wrapper return element `i` (respectively update it in place) when
`i < n`, and panic with the out-of-bounds message when `i ≥ n`. -/
theorem C1_scalar_validated (α : Type) (v : List α) (i : Nat) (x : α) :
    (∀ (h : i < v.length),
        UncheckedIndex.index Config.debug (unchecked_index v) i
          = Except.ok (some v[i]) ∧
        UncheckedIndex.index_mut Config.debug (unchecked_index v) i x
          = Except.ok (some (unchecked_index (v.set i x)))) ∧
    (v.length ≤ i →
        UncheckedIndex.index Config.debug (unchecked_index v) i
          = (Except.error (oob_msg i v.length) : Except String (Option α)) ∧
        UncheckedIndex.index_mut Config.debug (unchecked_index v) i x
          = Except.error (oob_msg i v.length)) := by
  constructor
  · intro h
    constructor
    · simp [UncheckedIndex.index, get_unchecked, unchecked_index,
        CheckIndex.assert_indexable_with, GetUnchecked.get_unchecked,
        instCheckSliceNat, instGetSliceNat, h, List.getElem?_eq_getElem]
    · simp [UncheckedIndex.index_mut, get_unchecked_mut, unchecked_index,
        CheckIndex.assert_indexable_with, GetUncheckedMut.get_unchecked_mut,
        instCheckSliceNat, instGetMutSliceNat, h, Except.map]
  · intro h
    have h' : ¬ i < v.length := Nat.not_lt.mpr h
    constructor
    · simp [UncheckedIndex.index, get_unchecked, unchecked_index,
        CheckIndex.assert_indexable_with, instCheckSliceNat, h']
    · simp [UncheckedIndex.index_mut, get_unchecked_mut, unchecked_index,
        CheckIndex.assert_indexable_with, instCheckSliceNat, h', Except.map]

/-- Witness for C1 at concrete inputs: reading index 1 of `[10, 20, 30]`
yields 20, and reading index 5 of `[10, 20]` panics. -/
theorem C1_scalar_validated_witness :
    UncheckedIndex.index Config.debug (unchecked_index ([10, 20, 30] : List Nat)) (1 : Nat)
      = Except.ok (some (20 : Nat)) ∧
    UncheckedIndex.index Config.debug (unchecked_index ([10, 20] : List Nat)) (5 : Nat)
      = (Except.error (oob_msg 5 2) : Except String (Option Nat)) := by
  constructor
  · exact ((C1_scalar_validated Nat [10, 20, 30] 1 99).1 (by decide)).1
  · exact ((C1_scalar_validated Nat [10, 20] 5 99).2 (by decide)).1

/-- C2: for every slice of length `n` and bounded range `[s, e)`, validated
range access through the wrapper returns the sub-slice iff `s ≤ e ∧ e ≤ n`,
and otherwise panics. -/
theorem C2_range_validated (α : Type) (v : List α) (s e : Nat) :
    (s ≤ e ∧ e ≤ v.length →
        UncheckedIndex.index Config.debug (unchecked_index v) (RustRange.mk s e)
          = Except.ok (some ((v.drop s).take (e - s)))) ∧
    (¬ (s ≤ e ∧ e ≤ v.length) →
        ∃ msg, UncheckedIndex.index Config.debug (unchecked_index v) (RustRange.mk s e)
          = (Except.error msg : Except String (Option (List α)))) := by
  constructor
  · intro h
    simp [UncheckedIndex.index, get_unchecked, unchecked_index,
      CheckIndex.assert_indexable_with, GetUnchecked.get_unchecked,
      instCheckSliceRange, instGetSliceRange, h, h.1, h.2]
  · intro h
    by_cases hse : s ≤ e
    · have hlen : ¬ e ≤ v.length := fun hl => h ⟨hse, hl⟩
      exact ⟨"end is greater than len=" ++ toString v.length, by
        simp [UncheckedIndex.index, get_unchecked, unchecked_index,
          CheckIndex.assert_indexable_with, instCheckSliceRange, hse, hlen]⟩
    · exact ⟨"start=" ++ toString s ++ " must be less than end=" ++ toString e, by
        simp [UncheckedIndex.index, get_unchecked, unchecked_index,
          CheckIndex.assert_indexable_with, instCheckSliceRange, hse]⟩

/-- Witness for C2 at concrete inputs: range `[1, 3)` of `[0, 1, 2, 3]`
yields `[1, 2]`, and range `[2, 9)` panics. -/
theorem C2_range_validated_witness :
    UncheckedIndex.index Config.debug (unchecked_index ([0, 1, 2, 3] : List Nat))
        (RustRange.mk 1 3) = Except.ok (some [1, 2]) ∧
    ∃ msg, UncheckedIndex.index Config.debug (unchecked_index ([0, 1, 2, 3] : List Nat))
        (RustRange.mk 2 9) = (Except.error msg : Except String (Option (List Nat))) := by
  constructor
  · exact (C2_range_validated Nat [0, 1, 2, 3] 1 3).1 (by decide)
  · exact (C2_range_validated Nat [0, 1, 2, 3] 2 9).2 (by decide)

/-- C3, counterexample to the claim as stated: rejecting the to-open range
`[0, 5)` on a slice of length 1 produces the message
`"end is greater than len=1"`, which does not contain the attempted index
(`5`) at all — so the diagnostic does not always include both the attempted
index and the length. -/
theorem C3_counterexample_range_to :
    CheckIndex.assert_indexable_with ([0] : List Nat) (RustRangeTo.mk 5)
      = Except.error ("end is greater than len=" ++ toString (1 : Nat)) ∧
    ¬ contains_sub (toString (5 : Nat)) ("end is greater than len=" ++ toString (1 : Nat)) := by
  constructor
  · rfl
  · decide

/-- C3, amended: when the scalar validity predicate rejects, the message
contains both the attempted index and the length; when a range predicate
rejects because the end exceeds the length, the message contains the length
(but, per the counterexample, not necessarily the attempted index). -/
theorem C3_amended_messages (α : Type) (v : List α) (i : Nat) (r : RustRange) :
    (v.length ≤ i →
        CheckIndex.assert_indexable_with v i
          = Except.error (oob_msg i v.length) ∧
        contains_sub (toString i) (oob_msg i v.length) ∧
        contains_sub (toString v.length) (oob_msg i v.length)) ∧
    (r.start ≤ r.stop → v.length < r.stop →
        CheckIndex.assert_indexable_with v r
          = Except.error ("end is greater than len=" ++ toString v.length) ∧
        contains_sub (toString v.length)
          ("end is greater than len=" ++ toString v.length)) := by
  constructor
  · intro h
    have h' : ¬ i < v.length := Nat.not_lt.mpr h
    refine ⟨by simp [CheckIndex.assert_indexable_with, instCheckSliceNat, h'], ?_, ?_⟩
    · exact ⟨"index ".data,
        (" is out of bounds in slice of len " ++ toString v.length).data,
        by simp [oob_msg, contains_sub]⟩
    · exact ⟨("index " ++ toString i ++ " is out of bounds in slice of len ").data,
        [], by simp [oob_msg, contains_sub]⟩
  · intro hse hlen
    have hlen' : ¬ r.stop ≤ v.length := Nat.not_le.mpr hlen
    refine ⟨by simp [CheckIndex.assert_indexable_with, instCheckSliceRange, hse, hlen'], ?_⟩
    exact ⟨"end is greater than len=".data, [], by simp [contains_sub]⟩

/-- Witness for C3 (amended) at concrete inputs: rejecting scalar index 5 on
a slice of length 2 produces a message containing both "5" and "2". -/
theorem C3_amended_messages_witness :
    CheckIndex.assert_indexable_with ([0, 0] : List Nat) (5 : Nat)
      = Except.error (oob_msg 5 2) ∧
    contains_sub (toString (5 : Nat)) (oob_msg 5 2) ∧
    contains_sub (toString (2 : Nat)) (oob_msg 5 2) := by
  have h := (C3_amended_messages Nat [0, 0] 5 (RustRange.mk 0 0)).1 (by decide)
  exact h

/-- C4: for every slice of length `n` and from-open range `[s, ..)`, validated
access through the wrapper returns the tail sub-slice iff `s ≤ n`, and
otherwise panics. -/
theorem C4_range_from_validated (α : Type) (v : List α) (s : Nat) :
    (s ≤ v.length →
        UncheckedIndex.index Config.debug (unchecked_index v) (RustRangeFrom.mk s)
          = Except.ok (some (v.drop s))) ∧
    (v.length < s →
        UncheckedIndex.index Config.debug (unchecked_index v) (RustRangeFrom.mk s)
          = (Except.error ("end is greater than len=" ++ toString v.length)
              : Except String (Option (List α)))) := by
  constructor
  · intro h
    simp [UncheckedIndex.index, get_unchecked, unchecked_index,
      CheckIndex.assert_indexable_with, GetUnchecked.get_unchecked,
      instCheckSliceRangeFrom, instGetSliceRangeFrom, h]
  · intro h
    have h' : ¬ s ≤ v.length := Nat.not_le.mpr h
    simp [UncheckedIndex.index, get_unchecked, unchecked_index,
      CheckIndex.assert_indexable_with, instCheckSliceRangeFrom, h']

/-- Witness for C4 at concrete inputs: `[2, ..)` on `[0, 1, 2]` yields `[2]`,
and `[4, ..)` on `[0, 1, 2]` panics. -/
theorem C4_range_from_validated_witness :
    UncheckedIndex.index Config.debug (unchecked_index ([0, 1, 2] : List Nat))
        (RustRangeFrom.mk 2) = Except.ok (some [2]) ∧
    UncheckedIndex.index Config.debug (unchecked_index ([0, 1, 2] : List Nat))
        (RustRangeFrom.mk 4)
      = (Except.error ("end is greater than len=" ++ toString (3 : Nat))
          : Except String (Option (List Nat))) := by
  constructor
  · exact (C4_range_from_validated Nat [0, 1, 2] 2).1 (by decide)
  · exact (C4_range_from_validated Nat [0, 1, 2] 4).2 (by decide)

/-- C5: the construction entry point `unchecked_index` performs no validation
and has no error path: it is a total function that returns a wrapper holding
exactly the container it was given. -/
theorem C5_construction_total (T : Type) (v : T) :
    unchecked_index v = UncheckedIndex.mk v ∧ (unchecked_index v).val = v :=
  ⟨rfl, rfl⟩

/-- C6: every wrapper value is the image of the construction entry point
applied to its own held container, and the only other wrapper-producing
operation, `Clone::clone`, returns the very wrapper it was given (`*self`),
so `unchecked_index` is the sole way to obtain a wrapper. -/
theorem C6_sole_constructor (S : Type) (w : UncheckedIndex S) :
    w = unchecked_index w.val ∧ UncheckedIndex.clone w = w :=
  ⟨rfl, rfl⟩

/-- C7: a write through the wrapper mutates the backing storage in place —
after writing `x` at in-bounds index `i` the container is `v.set i x`, which
holds `x` at `i` and is unchanged elsewhere; and the crate's Scenario A:
writing each index `0..8` of a length-8 container in increasing order yields
`[0, 1, 2, 3, 4, 5, 6, 7]`. -/
theorem C7_writes_in_place (α : Type) (v : List α) (i j : Nat) (x : α) :
    (∀ (h : i < v.length),
        UncheckedIndex.index_mut Config.debug (unchecked_index v) i x
          = Except.ok (some (unchecked_index (v.set i x))) ∧
        (v.set i x)[i]? = some x ∧
        (j ≠ i → (v.set i x)[j]? = v[j]?)) ∧
    write_seq Config.debug (unchecked_index (List.replicate 8 0)) (List.range 8)
      = Except.ok (some (unchecked_index [0, 1, 2, 3, 4, 5, 6, 7])) := by
  constructor
  · intro h
    refine ⟨?_, ?_, ?_⟩
    · simp [UncheckedIndex.index_mut, get_unchecked_mut, unchecked_index,
        CheckIndex.assert_indexable_with, GetUncheckedMut.get_unchecked_mut,
        instCheckSliceNat, instGetMutSliceNat, h, Except.map]
    · simp [List.getElem?_set_self, h]
    · intro hj
      simp [List.getElem?_set_ne (fun he => hj he.symm)]
  · rfl

/-- Witness for C7 at concrete inputs: writing 3 at index 0 of `[7, 7]`
yields the container `[3, 7]`, whose position 1 is unchanged. -/
theorem C7_writes_in_place_witness :
    UncheckedIndex.index_mut Config.debug (unchecked_index ([7, 7] : List Nat)) 0 3
      = Except.ok (some (unchecked_index [3, 7])) ∧
    (([7, 7] : List Nat).set 0 3)[1]? = some 7 := by
  have h := (C7_writes_in_place Nat [7, 7] 0 1 3).1 (by decide)
  exact ⟨h.1, h.2.2 (by decide)⟩

/-- C8: validated reads are idempotent and side-effect free — any number of
repeated reads of the same index yields the same outcome each time and leaves
the container unchanged (in either configuration). -/
theorem C8_reads_idempotent (α : Type) (cfg : Config) (v : List α) (i : Nat) (m : Nat) :
    read_iter cfg v i m = (UncheckedIndex.index cfg (unchecked_index v) i, v) := by
  induction m with
  | zero => rfl
  | succ m ih => simp [read_iter, ih]

/-- C9: full-range access never fails — in either configuration the
validity check accepts every slice and the access returns the entire
sequence. -/
theorem C9_full_range_total (α : Type) (cfg : Config) (v : List α) :
    CheckIndex.assert_indexable_with v RustRangeFull.mk = Except.ok () ∧
    UncheckedIndex.index cfg (unchecked_index v) RustRangeFull.mk
      = Except.ok (some v) := by
  cases cfg <;> exact ⟨rfl, rfl⟩

/-- C10: the blanket implementations for shared and mutable references
forward `assert_indexable_with`, `get_unchecked` and `get_unchecked_mut` to
the referent unchanged: each operation on the reference produces exactly the
same outcome as the corresponding operation applied directly to `T` (the
updated referent being wrapped back into the mutable reference). -/
theorem C10_reference_forwarding (T I O : Type) [CheckIndex T I] [GetUnchecked T I O]
    [GetUncheckedMut T I O] (v : T) (i : I) (x : O) :
    CheckIndex.assert_indexable_with (Ref.mk v) i
      = CheckIndex.assert_indexable_with v i ∧
    CheckIndex.assert_indexable_with (RefMut.mk v) i
      = CheckIndex.assert_indexable_with v i ∧
    (GetUnchecked.get_unchecked (Ref.mk v) i : Option O)
      = GetUnchecked.get_unchecked v i ∧
    (GetUnchecked.get_unchecked (RefMut.mk v) i : Option O)
      = GetUnchecked.get_unchecked v i ∧
    GetUncheckedMut.get_unchecked_mut (RefMut.mk v) i x
      = (GetUncheckedMut.get_unchecked_mut v i x).map RefMut.mk :=
  ⟨rfl, rfl, rfl, rfl, rfl⟩
